import Mathlib

/-!
Shallow embedding of the offline-first optimistic cache and mutation
layer of the notes/files web application: the TanStack-Query based hooks
(`hooks/useEntries.ts`, `hooks/useFiles.ts`), the query-client
configuration (`lib/queryClient.ts`), the gateway result shape
(`lib/api.ts`) and the persistence options (`main.tsx`).

Machine integers do not overflow in the relevant ranges, so ids are
modelled as `Int` and counters as `Nat`; the JavaScript `undefined`
of a never-populated cache key is modelled as `Option.none`; a promise
that can reject is modelled in `Except String`.
-/

namespace OfflineCache

/-- Domain record from `types/index.ts`: an entry is `{id, text}`. -/
structure Entry where
  id : Int
  text : String
deriving DecidableEq

/-- Domain record from `types/index.ts`: uploaded-file metadata. -/
structure FileMetadata where
  id : Int
  originalName : String
  storedName : String
  mimeType : String
  size : Nat
  description : Option String
  userId : Int
  createdAt : String
deriving DecidableEq

/-- Result shape of `request` in `lib/api.ts`: every gateway call resolves
to `{data?, error?, status}`. `status = 0` encodes a network-level failure
and every non-ok HTTP response (4xx/5xx) carries `error` set. -/
structure ApiResult (α : Type) where
  data : Option α := none
  error : Option String := none
  status : Nat := 200
deriving DecidableEq

/-- Client-side state touched by the entries mutation flows of
`hooks/useEntries.ts` (TanStack variant): the cached value of the
`['entries','list']` query key (`none` = never set), whether
`invalidateQueries` has been called on that key, how many times the
registered `onUnauthorized` callback has been invoked, the latest
mutation error message (`mutation.error?.message`), and how many gateway
calls have been issued. -/
structure EntriesState where
  cache : Option (List Entry)
  invalidated : Bool
  unauthorizedCalls : Nat
  mutationError : Option String
  gatewayCalls : Nat
deriving DecidableEq

/-- `addMutation.onMutate` (useEntries.ts, TanStack variant): snapshot the
previous cache value, then optimistically prepend a placeholder entry with
temporary id `-Date.now()`; returns the captured snapshot (the rollback
context) together with the updated state. `now` is the value of
`Date.now()` at mutate time. -/
def addOnMutate (now : Nat) (text : String) (s : EntriesState) :
    Option (List Entry) × EntriesState :=
  let previousEntries := s.cache
  let optimisticEntry : Entry := { id := -(now : Int), text := text }
  (previousEntries, { s with cache := some (optimisticEntry :: s.cache.getD []) })

/-- `updateMutation.onMutate`: snapshot, then optimistically rewrite the
text of the matching id (`old?.map(...) || []`). -/
def updateOnMutate (id : Int) (text : String) (s : EntriesState) :
    Option (List Entry) × EntriesState :=
  let previousEntries := s.cache
  let newData := (s.cache.getD []).map (fun e => if e.id = id then { e with text := text } else e)
  (previousEntries, { s with cache := some newData })

/-- `deleteMutation.onMutate`: snapshot, then optimistically remove the
matching id (`old?.filter(...) || []`). -/
def deleteOnMutate (id : Int) (s : EntriesState) :
    Option (List Entry) × EntriesState :=
  let previousEntries := s.cache
  let newData := (s.cache.getD []).filter (fun e => e.id ≠ id)
  (previousEntries, { s with cache := some newData })

/-- `addMutation.mutationFn`: one `entriesApi.create` attempt. It only
destructures `{data, error}` and throws when `error` is set — the HTTP
status is never inspected, so it never invokes `onUnauthorized`. The
second component counts `onUnauthorized` invocations of this attempt. -/
def addMutationFn (r : ApiResult Unit) : Except String Unit × Nat :=
  match r.error with
  | some e => (Except.error e, 0)
  | none => (Except.ok (), 0)

/-- `updateMutation.mutationFn`: one `entriesApi.update` attempt. A 401
status invokes the registered `onUnauthorized` callback and throws
`Unauthorized`; otherwise a set `error` throws. -/
def updateMutationFn (r : ApiResult Unit) : Except String Unit × Nat :=
  if r.status = 401 then (Except.error "Unauthorized", 1)
  else
    match r.error with
    | some e => (Except.error e, 0)
    | none => (Except.ok (), 0)

/-- `deleteMutation.mutationFn`: one `entriesApi.delete` attempt, same 401
handling as update. -/
def deleteMutationFn (r : ApiResult Unit) : Except String Unit × Nat :=
  if r.status = 401 then (Except.error "Unauthorized", 1)
  else
    match r.error with
    | some e => (Except.error e, 0)
    | none => (Except.ok (), 0)

/-- The shared `onError` handler of all three entries mutations: restore
the snapshot only when the captured context value is truthy — an
`undefined` (never-fetched) snapshot restores nothing. -/
def restoreOnError (snapshot : Option (List Entry)) (s : EntriesState) : EntriesState :=
  match snapshot with
  | some prev => { s with cache := some prev }
  | none => s

/-- The shared `onSettled` handler: `invalidateQueries` on the entries
list key, after success and failure alike. -/
def invalidateEntries (s : EntriesState) : EntriesState :=
  { s with invalidated := true }

/-- One `addMutation.mutateAsync` attempt, composed in the order the query
library runs the repository's callbacks: `onMutate` (snapshot + optimistic
apply), the gateway call via `mutationFn` (whose response is `r`), then on
failure `onError` (conditional rollback) and in both cases `onSettled`
(invalidation). Rejection of the promise is the `Except.error` channel. -/
def addMutateAsync (now : Nat) (text : String) (r : ApiResult Unit)
    (s : EntriesState) : Except String Unit × EntriesState :=
  let (snapshot, s1) := addOnMutate now text s
  let s1 := { s1 with gatewayCalls := s1.gatewayCalls + 1 }
  let (res, calls) := addMutationFn r
  let s1 := { s1 with unauthorizedCalls := s1.unauthorizedCalls + calls }
  match res with
  | Except.ok _ => (Except.ok (), invalidateEntries { s1 with mutationError := none })
  | Except.error e =>
      (Except.error e, invalidateEntries (restoreOnError snapshot { s1 with mutationError := some e }))

/-- One `updateMutation.mutateAsync` attempt (same composition). -/
def updateMutateAsync (id : Int) (text : String) (r : ApiResult Unit)
    (s : EntriesState) : Except String Unit × EntriesState :=
  let (snapshot, s1) := updateOnMutate id text s
  let s1 := { s1 with gatewayCalls := s1.gatewayCalls + 1 }
  let (res, calls) := updateMutationFn r
  let s1 := { s1 with unauthorizedCalls := s1.unauthorizedCalls + calls }
  match res with
  | Except.ok _ => (Except.ok (), invalidateEntries { s1 with mutationError := none })
  | Except.error e =>
      (Except.error e, invalidateEntries (restoreOnError snapshot { s1 with mutationError := some e }))

/-- One `deleteMutation.mutateAsync` attempt (same composition). -/
def deleteMutateAsync (id : Int) (r : ApiResult Unit)
    (s : EntriesState) : Except String Unit × EntriesState :=
  let (snapshot, s1) := deleteOnMutate id s
  let s1 := { s1 with gatewayCalls := s1.gatewayCalls + 1 }
  let (res, calls) := deleteMutationFn r
  let s1 := { s1 with unauthorizedCalls := s1.unauthorizedCalls + calls }
  match res with
  | Except.ok _ => (Except.ok (), invalidateEntries { s1 with mutationError := none })
  | Except.error e =>
      (Except.error e, invalidateEntries (restoreOnError snapshot { s1 with mutationError := some e }))

/-- The `!text.trim()` guard of `addEntry`/`updateEntry` (useEntries.ts):
true exactly when the input is empty or consists only of whitespace, i.e.
when the trimmed string is empty. -/
def isBlank (text : String) : Bool :=
  text.data.all Char.isWhitespace

/-- `addEntry` wrapper (useEntries.ts): blank input short-circuits to
`false` before any mutation; otherwise `mutateAsync` is awaited inside
`try/catch`, so every rejection is converted into the resolved value
`false`. The outer `Except` is the wrapper promise itself. -/
def addEntry (now : Nat) (text : String) (r : ApiResult Unit)
    (s : EntriesState) : Except String (Bool × EntriesState) :=
  if isBlank text then Except.ok (false, s)
  else
    match addMutateAsync now text r s with
    | (Except.ok _, s1) => Except.ok (true, s1)
    | (Except.error _, s1) => Except.ok (false, s1)

/-- `updateEntry` wrapper: blank check, then `try/catch` around
`mutateAsync`. -/
def updateEntry (id : Int) (text : String) (r : ApiResult Unit)
    (s : EntriesState) : Except String (Bool × EntriesState) :=
  if isBlank text then Except.ok (false, s)
  else
    match updateMutateAsync id text r s with
    | (Except.ok _, s1) => Except.ok (true, s1)
    | (Except.error _, s1) => Except.ok (false, s1)

/-- `deleteEntry` wrapper: `try/catch` around `mutateAsync` (no blank
check). -/
def deleteEntry (id : Int) (r : ApiResult Unit)
    (s : EntriesState) : Except String (Bool × EntriesState) :=
  match deleteMutateAsync id r s with
  | (Except.ok _, s1) => Except.ok (true, s1)
  | (Except.error _, s1) => Except.ok (false, s1)

/-- Client-side state touched by the file-delete mutation flow of
`hooks/useFiles.ts`, mirroring `EntriesState` for the `['files','list']`
query key. -/
structure FilesState where
  cache : Option (List FileMetadata)
  invalidated : Bool
  unauthorizedCalls : Nat
  mutationError : Option String
  gatewayCalls : Nat
deriving DecidableEq

/-- `deleteMutation.onMutate` (useFiles.ts): snapshot `previousFiles`,
then optimistically remove the matching file id
(`old?.filter(...) || []`). -/
def filesDeleteOnMutate (fileId : Int) (s : FilesState) :
    Option (List FileMetadata) × FilesState :=
  let previousFiles := s.cache
  let newData := (s.cache.getD []).filter (fun f => f.id ≠ fileId)
  (previousFiles, { s with cache := some newData })

/-- `deleteMutation.mutationFn` (useFiles.ts): throws when no token is
present (before any gateway call), invokes `onUnauthorized` and throws on
a 401 status, throws on a set `error`. Components: result, `onUnauthorized`
invocations, gateway calls issued by this attempt. -/
def filesDeleteMutationFn (token : Option String) (r : ApiResult Unit) :
    Except String Unit × Nat × Nat :=
  match token with
  | none => (Except.error "Nicht authentifiziert", 0, 0)
  | some _ =>
      if r.status = 401 then (Except.error "Unauthorized", 1, 1)
      else
        match r.error with
        | some e => (Except.error e, 0, 1)
        | none => (Except.ok (), 0, 1)

/-- `deleteMutation.onError` (useFiles.ts): restore `previousFiles` only
when the captured context value is truthy. -/
def filesRestoreOnError (snapshot : Option (List FileMetadata)) (s : FilesState) : FilesState :=
  match snapshot with
  | some prev => { s with cache := some prev }
  | none => s

/-- `deleteMutation.onSettled` (useFiles.ts): invalidate the files list
key. -/
def invalidateFiles (s : FilesState) : FilesState :=
  { s with invalidated := true }

/-- One `deleteMutation.mutateAsync` attempt of useFiles.ts, composed in
library callback order like the entries flows. -/
def filesDeleteMutateAsync (token : Option String) (fileId : Int)
    (r : ApiResult Unit) (s : FilesState) : Except String Unit × FilesState :=
  let (snapshot, s1) := filesDeleteOnMutate fileId s
  let (res, calls, gw) := filesDeleteMutationFn token r
  let s1 := { s1 with
    unauthorizedCalls := s1.unauthorizedCalls + calls,
    gatewayCalls := s1.gatewayCalls + gw }
  match res with
  | Except.ok _ => (Except.ok (), invalidateFiles { s1 with mutationError := none })
  | Except.error e =>
      (Except.error e, invalidateFiles (filesRestoreOnError snapshot { s1 with mutationError := some e }))

/-- Query status of a cache entry, as used by TanStack Query v5:
`pending` is an in-flight/never-resolved query ("loading"), `error` a
failed one, `success` a resolved one. -/
inductive QueryStatus
  | pending
  | error
  | success
deriving DecidableEq

/-- A cached query entry: the last known data for a key (`none` = never
resolved) and its status. -/
structure CacheEntry where
  data : Option (List Entry)
  status : QueryStatus
deriving DecidableEq

/-- The `queryFn` of the entries list query (useEntries.ts, TanStack
variant): with an empty token it resolves to `[]`; a 401 status invokes
`onUnauthorized` and throws; a set `error` throws; otherwise it resolves
to `data || []`. Second component counts `onUnauthorized` invocations. -/
def entriesQueryFn (token : String) (r : ApiResult (List Entry)) :
    Except String (List Entry) × Nat :=
  if token = "" then (Except.ok [], 0)
  else if r.status = 401 then (Except.error "Unauthorized", 1)
  else
    match r.error with
    | some e => (Except.error e, 0)
    | none => (Except.ok (r.data.getD []), 0)

/-- Modelled from the spec: how the query cache (maintained by the bundled
query library, not present under src/) folds a background refetch outcome
into an existing entry — "on success, replaces `data`, sets
`status=success`; on failure, sets `status=error` and preserves the last
good `data`". -/
def applyFetchResult (e : CacheEntry) (res : Except String (List Entry)) : CacheEntry :=
  match res with
  | Except.ok d => { data := some d, status := QueryStatus.success }
  | Except.error _ => { e with status := QueryStatus.error }

/-- A query as seen by the persistence layer: its key, status and an
opaque serialized payload. -/
structure PersistedQuery where
  queryKey : List String
  status : QueryStatus
  payload : String
deriving DecidableEq

/-- `shouldDehydrateQuery` from `main.tsx` `persistOptions.dehydrateOptions`:
persist a query exactly when `query.state.status === 'success'`. -/
def shouldDehydrateQuery (q : PersistedQuery) : Bool :=
  q.status = QueryStatus.success

/-- Modelled from the spec: the dehydration step of the persist client
(bundled library, not present under src/) serializes exactly the queries
selected by the configured `shouldDehydrateQuery` predicate. -/
def dehydrateQueries (qs : List PersistedQuery) : List PersistedQuery :=
  qs.filter shouldDehydrateQuery

/-- A mutation paused while offline; `createdAt` is its creation-ordered
id (original creation time). -/
structure PausedMutation where
  createdAt : Nat
  payload : String
deriving DecidableEq

/-- Modelled from the spec: a mutation that pauses while offline is
appended at the back of the paused queue, so the queue lists mutations in
creation order. -/
def pauseMutation (queue : List PausedMutation) (m : PausedMutation) : List PausedMutation :=
  queue ++ [m]

/-- Modelled from the spec: `resumePausedMutations` (bundled library, not
present under src/, called from the restore handler in `main.tsx`) gated
on the connectivity monitor — when online it replays the paused queue
front-to-back, committing each mutation to the gateway in queue order;
when offline nothing is committed. The result is the sequence of gateway
commits, in order. -/
def onRestoreSuccess (online : Bool) (queue : List PausedMutation) : List PausedMutation :=
  if online then queue else []

/-- `retry: 3` from `lib/queryClient.ts` `defaultOptions.mutations`. -/
def mutationRetryCount : Nat := 3

/-- `retry: 3` from `lib/queryClient.ts` `defaultOptions.queries`. -/
def queryRetryCount : Nat := 3

/-- `retryDelay` from `lib/queryClient.ts`:
`(attemptIndex) => Math.min(1000 * 2 ** attemptIndex, 30000)`. -/
def retryDelay (attemptIndex : Nat) : Nat :=
  min (1000 * 2 ^ attemptIndex) 30000

/-- `maxAge` from `main.tsx` `persistOptions` (24 hours in ms). -/
def persistMaxAgeMs : Nat := 1000 * 60 * 60 * 24

/-- `staleTime` from `lib/queryClient.ts` (5 minutes in ms). -/
def staleTimeMs : Nat := 1000 * 60 * 5

/-- Modelled from the spec: the retry driver of the bundled query library.
`runCommitAttempts succeeds i rem` performs attempt `i` and, while the
attempt fails and `rem` retries remain, re-attempts; it returns the total
number of attempts performed and whether the final attempt succeeded. A
mutation configured with `retry: n` runs `runCommitAttempts succeeds 0 n`. -/
def runCommitAttempts (succeeds : Nat → Bool) : Nat → Nat → Nat × Bool
  | i, 0 => (i + 1, succeeds i)
  | i, rem + 1 =>
      if succeeds i then (i + 1, true)
      else runCommitAttempts succeeds (i + 1) rem

/-! Concrete states and gateway responses used by counterexamples and
witnesses. -/

/-- An initial client state: entries key never fetched (`undefined`). -/
def s0 : EntriesState :=
  { cache := none, invalidated := false, unauthorizedCalls := 0
    mutationError := none, gatewayCalls := 0 }

/-- A client state whose entries key holds one previously fetched entry. -/
def sOne : EntriesState := { s0 with cache := some [{ id := 1, text := "x" }] }

/-- An initial files state: files key never fetched. -/
def fs0 : FilesState :=
  { cache := none, invalidated := false, unauthorizedCalls := 0
    mutationError := none, gatewayCalls := 0 }

/-- A gateway response for an internal server error (5xx). -/
def api500 : ApiResult Unit := { error := some "Serverfehler", status := 500 }

/-- A gateway response for an authentication failure; per `lib/api.ts`
every non-ok response carries `error` set. -/
def api401 : ApiResult Unit := { error := some "Unauthorized", status := 401 }

/-- A gateway that answers every attempt with a validation error (400). -/
def respAll400 : Nat → ApiResult Unit :=
  fun _ => { error := some "Text erforderlich", status := 400 }

/-! Theorems settling the claims. -/

/-- C1, counterexample: a create mutation against the never-fetched
entries key whose commit fails. The snapshot captured before the
optimistic apply is `none` (`undefined`), but after the rollback handler
runs the cache still holds the optimistic placeholder — it does not equal
the captured snapshot, refuting the claim as stated. -/
theorem C1_cex :
    (addOnMutate 5 "hi" s0).1 = none ∧
    (addMutateAsync 5 "hi" api500 s0).2.cache ≠ (addOnMutate 5 "hi" s0).1 := by
  decide

/-- C1, amended: for every mutation (entries add/update/delete and files
delete) whose commit attempt fails, **provided the pre-mutation cache data
existed** (`some prev`), the cache after the rollback handler equals
exactly the captured snapshot. -/
theorem C1_rollback_exact :
    (∀ (now : Nat) (text : String) (r : ApiResult Unit) (s : EntriesState)
      (prev : List Entry), s.cache = some prev → (r.error).isSome →
      (addMutateAsync now text r s).2.cache = some prev) ∧
    (∀ (id : Int) (text : String) (r : ApiResult Unit) (s : EntriesState)
      (prev : List Entry), s.cache = some prev →
      (r.status = 401 ∨ (r.error).isSome) →
      (updateMutateAsync id text r s).2.cache = some prev) ∧
    (∀ (id : Int) (r : ApiResult Unit) (s : EntriesState)
      (prev : List Entry), s.cache = some prev →
      (r.status = 401 ∨ (r.error).isSome) →
      (deleteMutateAsync id r s).2.cache = some prev) ∧
    (∀ (token : Option String) (fileId : Int) (r : ApiResult Unit)
      (s : FilesState) (prev : List FileMetadata), s.cache = some prev →
      (r.status = 401 ∨ (r.error).isSome) →
      (filesDeleteMutateAsync token fileId r s).2.cache = some prev) := by
  refine ⟨?_, ?_, ?_, ?_⟩
  · intro now text r s prev hc herr
    obtain ⟨e, he⟩ := Option.isSome_iff_exists.mp herr
    simp [addMutateAsync, addOnMutate, addMutationFn, he, hc,
      restoreOnError, invalidateEntries]
  · intro id text r s prev hc hfail
    by_cases h401 : r.status = 401
    · simp [updateMutateAsync, updateOnMutate, updateMutationFn, h401, hc,
        restoreOnError, invalidateEntries]
    · rcases hfail with h | herr
      · exact absurd h h401
      · obtain ⟨e, he⟩ := Option.isSome_iff_exists.mp herr
        simp [updateMutateAsync, updateOnMutate, updateMutationFn, h401, he,
          hc, restoreOnError, invalidateEntries]
  · intro id r s prev hc hfail
    by_cases h401 : r.status = 401
    · simp [deleteMutateAsync, deleteOnMutate, deleteMutationFn, h401, hc,
        restoreOnError, invalidateEntries]
    · rcases hfail with h | herr
      · exact absurd h h401
      · obtain ⟨e, he⟩ := Option.isSome_iff_exists.mp herr
        simp [deleteMutateAsync, deleteOnMutate, deleteMutationFn, h401, he,
          hc, restoreOnError, invalidateEntries]
  · intro token fileId r s prev hc hfail
    cases token with
    | none =>
        simp [filesDeleteMutateAsync, filesDeleteOnMutate,
          filesDeleteMutationFn, hc, filesRestoreOnError, invalidateFiles]
    | some tk =>
        by_cases h401 : r.status = 401
        · simp [filesDeleteMutateAsync, filesDeleteOnMutate,
            filesDeleteMutationFn, h401, hc, filesRestoreOnError,
            invalidateFiles]
        · rcases hfail with h | herr
          · exact absurd h h401
          · obtain ⟨e, he⟩ := Option.isSome_iff_exists.mp herr
            simp [filesDeleteMutateAsync, filesDeleteOnMutate,
              filesDeleteMutationFn, h401, he, hc, filesRestoreOnError,
              invalidateFiles]

/-- Witness for `C1_rollback_exact` at a concrete input: a failing create
against a fetched one-entry cache restores that entry list exactly. -/
theorem C1_rollback_exact_witness :
    (addMutateAsync 5 "hi" api500 sOne).2.cache = some [{ id := 1, text := "x" }] :=
  C1_rollback_exact.1 5 "hi" api500 sOne [{ id := 1, text := "x" }] rfl (by decide)

/-- C2: the optimistic placeholder of a create mutation receives the
locally generated temporary id `-Date.now()` — negative whenever the clock
is past the epoch — and is spliced at the head of the target list, the
rest of the list unchanged. -/
theorem C2_create_placeholder_head (now : Nat) (text : String)
    (s : EntriesState) (h : 0 < now) :
    ∃ optimistic : Entry,
      (addOnMutate now text s).2.cache = some (optimistic :: s.cache.getD []) ∧
      optimistic.id < 0 ∧ optimistic.text = text := by
  refine ⟨{ id := -(now : Int), text := text }, rfl, ?_, rfl⟩
  show -(now : Int) < 0
  have hpos : (0 : Int) < (now : Int) := by exact_mod_cast h
  omega

/-- Witness for `C2_create_placeholder_head` at `Date.now() = 3`. -/
theorem C2_create_placeholder_head_witness :
    ∃ optimistic : Entry,
      (addOnMutate 3 "a" s0).2.cache = some (optimistic :: s0.cache.getD []) ∧
      optimistic.id < 0 ∧ optimistic.text = "a" :=
  C2_create_placeholder_head 3 "a" s0 (by decide)

/-- C10: when the captured snapshot is `undefined` (key never fetched),
the error handler restores nothing: after a failing create the optimistic
placeholder list remains in the cache, after a failing files delete the
optimistic empty list remains, and in both flows the settled-phase
invalidation has been performed. -/
theorem C10_no_rollback_without_snapshot :
    (∀ (now : Nat) (text : String) (r : ApiResult Unit) (s : EntriesState),
      s.cache = none → (r.error).isSome →
      (addMutateAsync now text r s).2.cache =
        some [{ id := -(now : Int), text := text }] ∧
      (addMutateAsync now text r s).2.invalidated = true) ∧
    (∀ (token : Option String) (fileId : Int) (r : ApiResult Unit)
      (s : FilesState), s.cache = none → (r.error).isSome →
      (filesDeleteMutateAsync token fileId r s).2.cache = some [] ∧
      (filesDeleteMutateAsync token fileId r s).2.invalidated = true) := by
  constructor
  · intro now text r s hc herr
    obtain ⟨e, he⟩ := Option.isSome_iff_exists.mp herr
    constructor <;>
      simp [addMutateAsync, addOnMutate, addMutationFn, he, hc,
        restoreOnError, invalidateEntries]
  · intro token fileId r s hc herr
    obtain ⟨e, he⟩ := Option.isSome_iff_exists.mp herr
    cases token with
    | none =>
        constructor <;>
          simp [filesDeleteMutateAsync, filesDeleteOnMutate,
            filesDeleteMutationFn, hc, filesRestoreOnError, invalidateFiles]
    | some tk =>
        by_cases h401 : r.status = 401 <;>
          constructor <;>
            simp [filesDeleteMutateAsync, filesDeleteOnMutate,
              filesDeleteMutationFn, h401, he, hc, filesRestoreOnError,
              invalidateFiles]

/-- Witness for `C10_no_rollback_without_snapshot`: failing create against
the never-fetched key leaves the placeholder in place, invalidated. -/
theorem C10_no_rollback_without_snapshot_witness :
    (addMutateAsync 5 "hi" api500 s0).2.cache = some [{ id := -(5 : Int), text := "hi" }] ∧
    (addMutateAsync 5 "hi" api500 s0).2.invalidated = true :=
  C10_no_rollback_without_snapshot.1 5 "hi" api500 s0 rfl (by decide)

/-- C3: the write entry points `addEntry`, `updateEntry` and `deleteEntry`
never reject — each resolves (`Except.ok`) to a boolean that is `true`
exactly when the commit succeeded (non-blank input and a gateway response
with no error, and for update/delete additionally no 401), with the commit
error message stored in the side-channel `mutationError` field on
failure. -/
theorem C3_write_wrappers_resolve_boolean :
    (∀ (now : Nat) (text : String) (r : ApiResult Unit) (s : EntriesState),
      ∃ b s1, addEntry now text r s = Except.ok (b, s1) ∧
        (b = true ↔ (¬ isBlank text = true ∧ r.error = none)) ∧
        (¬ isBlank text = true → (r.error).isSome → s1.mutationError = r.error)) ∧
    (∀ (id : Int) (text : String) (r : ApiResult Unit) (s : EntriesState),
      ∃ b s1, updateEntry id text r s = Except.ok (b, s1) ∧
        (b = true ↔ (¬ isBlank text = true ∧ ¬ r.status = 401 ∧ r.error = none)) ∧
        (¬ isBlank text = true → b = false → (s1.mutationError).isSome)) ∧
    (∀ (id : Int) (r : ApiResult Unit) (s : EntriesState),
      ∃ b s1, deleteEntry id r s = Except.ok (b, s1) ∧
        (b = true ↔ (¬ r.status = 401 ∧ r.error = none)) ∧
        (b = false → (s1.mutationError).isSome)) := by
  refine ⟨?_, ?_, ?_⟩
  · intro now text r s
    by_cases hb : isBlank text = true
    · exact ⟨false, s, by simp [addEntry, hb], by simp [hb], by simp [hb]⟩
    · cases he : r.error with
      | none =>
          refine ⟨true, (addMutateAsync now text r s).2, ?_, ?_, ?_⟩
          · simp [addEntry, hb, addMutateAsync, addOnMutate, addMutationFn, he]
          · simp [hb, he]
          · simp [he]
      | some e =>
          refine ⟨false, (addMutateAsync now text r s).2, ?_, ?_, ?_⟩
          · simp [addEntry, hb, addMutateAsync, addOnMutate, addMutationFn, he]
          · simp [he]
          · intro _ _
            cases hc : s.cache <;>
              simp [addMutateAsync, addOnMutate, addMutationFn, he, hc,
                restoreOnError, invalidateEntries]
  · intro id text r s
    by_cases hb : isBlank text = true
    · exact ⟨false, s, by simp [updateEntry, hb], by simp [hb], by simp [hb]⟩
    · by_cases h401 : r.status = 401
      · refine ⟨false, (updateMutateAsync id text r s).2, ?_, ?_, ?_⟩
        · simp [updateEntry, hb, updateMutateAsync, updateOnMutate,
            updateMutationFn, h401]
        · simp [h401]
        · intro _ _
          cases hc : s.cache <;>
            simp [updateMutateAsync, updateOnMutate, updateMutationFn, h401,
              hc, restoreOnError, invalidateEntries]
      · cases he : r.error with
        | none =>
            refine ⟨true, (updateMutateAsync id text r s).2, ?_, ?_, ?_⟩
            · simp [updateEntry, hb, updateMutateAsync, updateOnMutate,
                updateMutationFn, h401, he]
            · simp [hb, h401, he]
            · simp
        | some e =>
            refine ⟨false, (updateMutateAsync id text r s).2, ?_, ?_, ?_⟩
            · simp [updateEntry, hb, updateMutateAsync, updateOnMutate,
                updateMutationFn, h401, he]
            · simp [he]
            · intro _ _
              cases hc : s.cache <;>
                simp [updateMutateAsync, updateOnMutate, updateMutationFn,
                  h401, he, hc, restoreOnError, invalidateEntries]
  · intro id r s
    by_cases h401 : r.status = 401
    · refine ⟨false, (deleteMutateAsync id r s).2, ?_, ?_, ?_⟩
      · simp [deleteEntry, deleteMutateAsync, deleteOnMutate,
          deleteMutationFn, h401]
      · simp [h401]
      · intro _
        cases hc : s.cache <;>
          simp [deleteMutateAsync, deleteOnMutate, deleteMutationFn, h401,
            hc, restoreOnError, invalidateEntries]
    · cases he : r.error with
      | none =>
          refine ⟨true, (deleteMutateAsync id r s).2, ?_, ?_, ?_⟩
          · simp [deleteEntry, deleteMutateAsync, deleteOnMutate,
              deleteMutationFn, h401, he]
          · simp [h401, he]
          · simp
      | some e =>
          refine ⟨false, (deleteMutateAsync id r s).2, ?_, ?_, ?_⟩
          · simp [deleteEntry, deleteMutateAsync, deleteOnMutate,
              deleteMutationFn, h401, he]
          · simp [he]
          · intro _
            cases hc : s.cache <;>
              simp [deleteMutateAsync, deleteOnMutate, deleteMutationFn,
                h401, he, hc, restoreOnError, invalidateEntries]

/-- Witness for `C3_write_wrappers_resolve_boolean`: a failing create
resolves (does not reject) with its boolean and side-channel obligations
at a concrete input. -/
theorem C3_write_wrappers_resolve_boolean_witness :
    ∃ b s1, addEntry 5 "hi" api500 s0 = Except.ok (b, s1) ∧
      (b = true ↔ (¬ isBlank "hi" = true ∧ api500.error = none)) ∧
      (¬ isBlank "hi" = true → (api500.error).isSome → s1.mutationError = api500.error) :=
  C3_write_wrappers_resolve_boolean.1 5 "hi" api500 s0

/-- C4, counterexample: a create mutation whose commit returns HTTP 401
(`api401`) does not invoke the registered `onUnauthorized` callback at
all — `addMutation.mutationFn` never inspects the status — refuting
"invoked exactly once" for create mutations. -/
theorem C4_cex :
    (addMutateAsync 5 "y" api401 sOne).2.unauthorizedCalls = 0 ∧
    (0 : Nat) ≠ 1 := by
  decide

/-- C4, amended: for update and delete mutations (entries and files) a
commit attempt returning 401 invokes the registered `onUnauthorized`
callback exactly once for that attempt and rolls the cache back to the
captured snapshot; a create mutation returning 401 (which per `lib/api.ts`
carries `error` set) is rolled back identically but never invokes the
callback. -/
theorem C4_unauthorized_handling :
    (∀ (id : Int) (text : String) (r : ApiResult Unit) (s : EntriesState)
      (prev : List Entry), r.status = 401 → s.cache = some prev →
      (updateMutateAsync id text r s).2.unauthorizedCalls = s.unauthorizedCalls + 1 ∧
      (updateMutateAsync id text r s).2.cache = some prev) ∧
    (∀ (id : Int) (r : ApiResult Unit) (s : EntriesState)
      (prev : List Entry), r.status = 401 → s.cache = some prev →
      (deleteMutateAsync id r s).2.unauthorizedCalls = s.unauthorizedCalls + 1 ∧
      (deleteMutateAsync id r s).2.cache = some prev) ∧
    (∀ (tk : String) (fileId : Int) (r : ApiResult Unit) (s : FilesState)
      (prev : List FileMetadata), r.status = 401 → s.cache = some prev →
      (filesDeleteMutateAsync (some tk) fileId r s).2.unauthorizedCalls = s.unauthorizedCalls + 1 ∧
      (filesDeleteMutateAsync (some tk) fileId r s).2.cache = some prev) ∧
    (∀ (now : Nat) (text : String) (r : ApiResult Unit) (s : EntriesState)
      (prev : List Entry), r.status = 401 → (r.error).isSome → s.cache = some prev →
      (addMutateAsync now text r s).2.unauthorizedCalls = s.unauthorizedCalls ∧
      (addMutateAsync now text r s).2.cache = some prev) := by
  refine ⟨?_, ?_, ?_, ?_⟩
  · intro id text r s prev h401 hc
    constructor <;>
      simp [updateMutateAsync, updateOnMutate, updateMutationFn, h401, hc,
        restoreOnError, invalidateEntries]
  · intro id r s prev h401 hc
    constructor <;>
      simp [deleteMutateAsync, deleteOnMutate, deleteMutationFn, h401, hc,
        restoreOnError, invalidateEntries]
  · intro tk fileId r s prev h401 hc
    constructor <;>
      simp [filesDeleteMutateAsync, filesDeleteOnMutate,
        filesDeleteMutationFn, h401, hc, filesRestoreOnError, invalidateFiles]
  · intro now text r s prev h401 herr hc
    obtain ⟨e, he⟩ := Option.isSome_iff_exists.mp herr
    constructor <;>
      simp [addMutateAsync, addOnMutate, addMutationFn, he, hc,
        restoreOnError, invalidateEntries]

/-- Witness for `C4_unauthorized_handling`: a 401 on an update against a
fetched one-entry cache invokes the callback once and restores the
snapshot. -/
theorem C4_unauthorized_handling_witness :
    (updateMutateAsync 1 "neu" api401 sOne).2.unauthorizedCalls = sOne.unauthorizedCalls + 1 ∧
    (updateMutateAsync 1 "neu" api401 sOne).2.cache = some [{ id := 1, text := "x" }] :=
  C4_unauthorized_handling.1 1 "neu" api401 sOne [{ id := 1, text := "x" }] rfl rfl

/-- Helper: the retry driver performs at most `rem + 1` further attempts
starting from attempt `i`. -/
theorem runCommitAttempts_attempts_le (succeeds : Nat → Bool) :
    ∀ (rem i : Nat), (runCommitAttempts succeeds i rem).1 ≤ i + rem + 1 := by
  intro rem
  induction rem with
  | zero => intro i; simp [runCommitAttempts]
  | succ n ih =>
      intro i
      by_cases h : succeeds i = true
      · simp only [runCommitAttempts, if_pos h]
        omega
      · simp only [runCommitAttempts, if_neg h]
        have h2 := ih (i + 1)
        omega

/-- C5, counterexample: a mutation whose every commit attempt fails with a
validation error (HTTP 400) is nevertheless retried — with the configured
`retry: 3` the driver performs 4 commit attempts, not the single attempt
the claim requires for non-401 4xx errors. -/
theorem C5_cex :
    (runCommitAttempts (fun i => (addMutationFn (respAll400 i)).1.isOk) 0
      mutationRetryCount).1 = 4 ∧ (4 : Nat) ≠ 1 := by
  decide

/-- C5, amended: the configured retry policy is uniform over failure
classes — any failing commit is re-attempted up to `retry: 3` times (at
most 4 attempts, exactly 4 when every attempt fails, validation errors
included) with exponential backoff `min(1000·2^attempt, 30000)` ms. -/
theorem C5_uniform_bounded_retry :
    (∀ (succeeds : Nat → Bool),
      (runCommitAttempts succeeds 0 mutationRetryCount).1 ≤ 4) ∧
    (∀ (resp : Nat → ApiResult Unit), (∀ i, ((resp i).error).isSome) →
      runCommitAttempts (fun i => (addMutationFn (resp i)).1.isOk) 0
        mutationRetryCount = (4, false)) ∧
    retryDelay 0 = 1000 ∧ retryDelay 1 = 2000 ∧ retryDelay 2 = 4000 ∧
    (∀ i, retryDelay i ≤ 30000) := by
  refine ⟨?_, ?_, by decide, by decide, by decide, ?_⟩
  · intro succeeds
    simpa [mutationRetryCount] using
      runCommitAttempts_attempts_le succeeds mutationRetryCount 0
  · intro resp hfail
    have hf : ∀ i, (addMutationFn (resp i)).1.isOk = false := by
      intro i
      obtain ⟨e, he⟩ := Option.isSome_iff_exists.mp (hfail i)
      simp [addMutationFn, he, Except.isOk, Except.toBool]
    simp [mutationRetryCount, runCommitAttempts, hf]
  · intro i
    exact min_le_right _ _

/-- Witness for `C5_uniform_bounded_retry`: the always-400 gateway yields
exactly 4 attempts and a final failure. -/
theorem C5_uniform_bounded_retry_witness :
    runCommitAttempts (fun i => (addMutationFn (respAll400 i)).1.isOk) 0
      mutationRetryCount = (4, false) :=
  C5_uniform_bounded_retry.2.1 respAll400 (fun _ => rfl)

/-- C6: the persisted snapshot contains only `success` entries — every
query kept by the dehydration filter configured in `main.tsx` has status
`success`, so no in-flight (`pending`) or errored entry is ever written to
the persistent key store. -/
theorem C6_persist_only_success (qs : List PersistedQuery) (q : PersistedQuery)
    (h : q ∈ dehydrateQueries qs) :
    q.status = QueryStatus.success ∧
    ¬ q.status = QueryStatus.pending ∧ ¬ q.status = QueryStatus.error := by
  have hs : q.status = QueryStatus.success := by
    have hm := List.mem_filter.mp h
    simpa [shouldDehydrateQuery] using hm.2
  refine ⟨hs, ?_, ?_⟩ <;> simp [hs]

/-- Witness for `C6_persist_only_success`: from a cache holding one entry
of each status, the filter keeps the `success` one. -/
theorem C6_persist_only_success_witness :
    let qSucc : PersistedQuery := ⟨["entries", "list"], QueryStatus.success, "d1"⟩
    qSucc.status = QueryStatus.success ∧
    ¬ qSucc.status = QueryStatus.pending ∧ ¬ qSucc.status = QueryStatus.error :=
  C6_persist_only_success
    [⟨["files", "list"], QueryStatus.pending, "d0"⟩,
     ⟨["entries", "list"], QueryStatus.success, "d1"⟩,
     ⟨["entries", "list"], QueryStatus.error, "d2"⟩]
    ⟨["entries", "list"], QueryStatus.success, "d1"⟩ (by decide)

/-- Helper: pausing mutations one after another appends them behind the
existing queue. -/
theorem foldl_pauseMutation (ms : List PausedMutation) :
    ∀ acc, ms.foldl pauseMutation acc = acc ++ ms := by
  induction ms with
  | nil => intro acc; simp
  | cons m rest ih =>
      intro acc
      simp [List.foldl, pauseMutation, ih]

/-- C7: mutations paused in issuance (creation) order are not committed at
all while the connectivity monitor reports offline, and once it confirms
online the restore handler replays them to the gateway in exactly that
creation order (strict FIFO). -/
theorem C7_resume_gated_fifo (ms : List PausedMutation) :
    onRestoreSuccess false (ms.foldl pauseMutation []) = [] ∧
    onRestoreSuccess true (ms.foldl pauseMutation []) = ms := by
  constructor
  · simp [onRestoreSuccess]
  · simp [onRestoreSuccess, foldl_pauseMutation]

/-- C8: a failing background refetch (401 or any gateway error, the token
being present) leaves the cached entries data unchanged and sets the
status to `error` — it never nulls or blanks the last good data. -/
theorem C8_failed_refetch_preserves_data (e : CacheEntry) (token : String)
    (r : ApiResult (List Entry)) (htoken : ¬ token = "")
    (hfail : r.status = 401 ∨ (r.error).isSome) :
    (applyFetchResult e (entriesQueryFn token r).1).data = e.data ∧
    (applyFetchResult e (entriesQueryFn token r).1).status = QueryStatus.error := by
  by_cases h401 : r.status = 401
  · constructor <;> simp [entriesQueryFn, htoken, h401, applyFetchResult]
  · rcases hfail with h | herr
    · exact absurd h h401
    · obtain ⟨msg, hm⟩ := Option.isSome_iff_exists.mp herr
      constructor <;>
        simp [entriesQueryFn, htoken, h401, hm, applyFetchResult]

/-- Witness for `C8_failed_refetch_preserves_data`: a 500 on refetch over
a populated entry keeps its data and marks the entry errored. -/
theorem C8_failed_refetch_preserves_data_witness :
    (applyFetchResult ⟨some [{ id := 1, text := "x" }], QueryStatus.success⟩
      (entriesQueryFn "tok"
        { data := none, error := some "Serverfehler", status := 500 }).1).data =
      (⟨some [{ id := 1, text := "x" }], QueryStatus.success⟩ : CacheEntry).data ∧
    (applyFetchResult ⟨some [{ id := 1, text := "x" }], QueryStatus.success⟩
      (entriesQueryFn "tok"
        { data := none, error := some "Serverfehler", status := 500 }).1).status =
      QueryStatus.error :=
  C8_failed_refetch_preserves_data
    ⟨some [{ id := 1, text := "x" }], QueryStatus.success⟩ "tok"
    { data := none, error := some "Serverfehler", status := 500 }
    (by decide) (by decide)

/-- C9: whitespace-only (or empty) input makes `addEntry` and
`updateEntry` resolve to `false` with the state — cache, error field and
gateway-call counter — left exactly as it was: no network call is issued
and no cache modification happens. -/
theorem C9_blank_input_short_circuit (now : Nat) (id : Int) (text : String)
    (r : ApiResult Unit) (s : EntriesState) (h : isBlank text = true) :
    addEntry now text r s = Except.ok (false, s) ∧
    updateEntry id text r s = Except.ok (false, s) := by
  constructor
  · simp [addEntry, h]
  · simp [updateEntry, h]

/-- Witness for `C9_blank_input_short_circuit` on the whitespace-only
input `"  "`. -/
theorem C9_blank_input_short_circuit_witness :
    addEntry 5 "  " api500 sOne = Except.ok (false, sOne) ∧
    updateEntry 1 "  " api500 sOne = Except.ok (false, sOne) :=
  C9_blank_input_short_circuit 5 1 "  " api500 sOne (by decide)

end OfflineCache
